import Mathlib

/-!
# Verification of the Repo Archaeologist investigation orchestrator

Shallow embedding of the investigation orchestrator of the repository
(`src/investigator.ts`, `src/agents/leadDetective.ts`, `src/agents/deepDive.ts`,
`src/agents/types.ts`) and proofs of the testable properties stated in its
specification.

Conventions of the embedding:
* JavaScript `Date` objects are embedded as `JsDate` carrying the epoch
  milliseconds (used by `getTime()` comparisons) and the ISO rendering string
  (used by `toISOString()`); both are data, no clock is consulted.
* JavaScript numbers that hold integer counts or confidences are embedded as
  `Int` (or `Nat` where the source can only produce non-negative values, e.g.
  `parseInt` of a `\d+` capture group).  `Math.round` on the verification
  ratio is embedded as Mathlib's `round` on `ℚ`, which agrees with JavaScript
  `Math.round` (half-up) on these values.
* Free-text scanning by regular expressions is embedded by passing the list of
  match results as an explicit argument (the functions are universally
  quantified over every possible match list, which covers every response
  text).
* Fallible external calls (git, GitHub, file system, model) are embedded as
  `Option`-valued stub providers: `none` means the call failed or returned
  nothing, and the surrounding `try/catch` of the source skips the step.
-/

namespace RepoArch

/-- Embedding of a JavaScript `Date`: epoch milliseconds (`getTime()`) plus the
ISO string (`toISOString()`). -/
structure JsDate where
  ms : Int
  iso : String
deriving DecidableEq, Repr

/-- JavaScript truthiness of an optional string (`undefined` and `""` are
falsy). -/
def jsTruthy : Option String → Bool
  | none => false
  | some s => s ≠ ""

/-- Whether the second character list is an initial segment of the first. -/
def charListLeads : List Char → List Char → Bool
  | _, [] => true
  | [], _ :: _ => false
  | c :: cs, p :: ps => p = c && charListLeads cs ps

/-- `String.prototype.startsWith`, computed on the character lists. -/
def strStartsWith (s pre : String) : Bool :=
  charListLeads s.data pre.data

/-- The characters before the first occurrence of `c`
(`text.split(c)[0]`). -/
def takeUntilChar (c : Char) : List Char → List Char
  | [] => []
  | x :: xs => if x = c then [] else x :: takeUntilChar c xs

/-- `text.toUpperCase()` on ASCII text, computed on the character list. -/
def asciiUpper (s : String) : String :=
  ⟨s.data.map Char.toUpper⟩

/-- `BlameData` of `src/agents/types.ts`. -/
structure BlameData where
  commitHash : String
  author : String
  authorEmail : String
  timestamp : JsDate
  lineNumber : Nat
  lineContent : String
deriving DecidableEq, Repr

/-- `CommitInfo` of `src/agents/types.ts`. -/
structure CommitInfo where
  hash : String
  author : String
  authorEmail : String
  date : JsDate
  message : String
  diff : String
  changedFiles : List String
deriving DecidableEq, Repr

/-- `PRData` of `src/agents/types.ts` (comments and reviews are only ever
rendered into the model prompt, which no claim concerns, so they are not
carried). -/
structure PRData where
  number : Nat
  title : String
  body : String
  author : String
  state : String
  url : String
  createdAt : JsDate
  mergedAt : Option JsDate
  linkedIssues : List Nat
deriving DecidableEq, Repr

/-- `IssueData` of `src/agents/types.ts` (comments omitted as for `PRData`). -/
structure IssueData where
  number : Nat
  title : String
  body : String
  author : String
  state : String
  url : String
  createdAt : JsDate
  labels : List String
deriving DecidableEq, Repr

/-- `Evidence` of `src/agents/types.ts`: the `type` discriminator and the
`data` payload of the source are fused into one tagged union (every
construction site of the source pairs them consistently).  The capture
timestamp and provenance label are carried by no claim and omitted. -/
inductive Evidence where
  | blame (b : BlameData)
  | commit (c : CommitInfo)
  | pr (p : PRData)
  | issue (i : IssueData)
  | fileHistory (cs : List CommitInfo)
deriving DecidableEq, Repr

/-- The `type` field of a `Source` citation (`'commit' | 'pr' | 'issue' |
'comment'`). -/
inductive SrcType where
  | commit
  | pr
  | issue
  | comment
deriving DecidableEq, Repr

/-- `Source` of `src/agents/types.ts`. -/
structure Source where
  type : SrcType
  id : String
  url : Option String
  description : String
deriving DecidableEq, Repr

/-- `Recommendation` of `src/agents/types.ts` (`action` and `priority` kept as
strings exactly as rendered). -/
structure Recommendation where
  action : String
  reason : String
  priority : String
deriving DecidableEq, Repr

/-- `TimelineEvent` of `src/agents/types.ts`. -/
structure TimelineEvent where
  date : JsDate
  type : String
  title : String
  description : String
  author : String
  sourceId : String
  sourceUrl : Option String
deriving DecidableEq, Repr

/-- `InvestigationResult` of `src/agents/types.ts` (the opaque `thoughtChain`
is carried by no claim and omitted). -/
structure InvestigationResult where
  narrative : String
  summary : String
  confidence : Int
  sources : List Source
  recommendations : List Recommendation
  timeline : List TimelineEvent
deriving DecidableEq, Repr

/-- `VerifiedLink` of `src/agents/deepDive.ts`. -/
structure VerifiedLink where
  type : SrcType
  id : String
  url : Option String
  verified : Bool
  reason : Option String
deriving DecidableEq, Repr

/-- `VerificationReport` of `src/agents/deepDive.ts`. -/
structure VerificationReport where
  claimsVerified : Nat
  claimsFailed : Nat
  linksChecked : List VerifiedLink
  overallConfidence : Int
deriving DecidableEq, Repr

/-! ## Confidence extraction (`LeadDetectiveAgent.parseInvestigationResponse`) -/

/-- Confidence computation of `parseInvestigationResponse`
(`src/agents/leadDetective.ts`).  The ordered regular-expression patterns are
embedded by their outcome `extracted`: `some n` when the first pattern that
matches the response text captures the digits of `n` (`parseInt` of a `\d+`
group is always a natural number), `none` when no pattern matches, in which
case the source leaves the scanned variable at its initialisation value `0`.
A zero confidence then falls back to the evidence-based default (92 with
evidence, 65 without), and the result is clamped with
`Math.min(100, Math.max(0, confidence))`. -/
def parseInvestigationConfidence (extracted : Option Nat) (evidence : List Evidence) : Int :=
  let confidence : Int :=
    match extracted with
    | some n => (n : Int)
    | none => 0
  let confidence : Int :=
    if confidence = 0 then (if 0 < evidence.length then 92 else 65) else confidence
  min 100 (max 0 confidence)

/-! ## Source verification (`DeepDiveAgent.verifySource`) -/

/-- Removes the first occurrence of `pat` from `s`, the behaviour of
JavaScript `String.prototype.replace(pat, '')` with a string pattern. -/
def removeFirstOcc (s pat : String) : String :=
  match s.splitOn pat with
  | [] => s
  | [a] => a
  | a :: b :: rest => a ++ String.intercalate pat (b :: rest)

/-- `DeepDiveAgent.verifySource` (`src/agents/deepDive.ts`).  The History
Provider (`this.historian`) is embedded as an optional hash-resolution oracle:
`some resolves` where `resolves h = true` exactly when
`historian.getCommitInfo(h)` succeeds.  A commit citation is checked only when
a historian is present (`source.type === 'commit' && this.historian`); PR and
issue citations with a truthy URL are marked verified from the URL alone, and
every remaining case falls into the catch-all `else` that marks the citation
verified. -/
def verifySource (historian : Option (String → Bool)) (s : Source) : VerifiedLink :=
  let v0 : VerifiedLink := ⟨s.type, s.id, s.url, false, none⟩
  match historian with
  | some resolves =>
    if s.type = SrcType.commit then
      let commitHash := (removeFirstOcc s.id "Commit ").take 7
      if resolves commitHash then { v0 with verified := true }
      else { v0 with reason := some "Commit not found in repository" }
    else if s.type = SrcType.pr ∧ jsTruthy s.url then { v0 with verified := true }
    else if s.type = SrcType.issue ∧ jsTruthy s.url then { v0 with verified := true }
    else { v0 with verified := true }
  | none =>
    if s.type = SrcType.pr ∧ jsTruthy s.url then { v0 with verified := true }
    else if s.type = SrcType.issue ∧ jsTruthy s.url then { v0 with verified := true }
    else { v0 with verified := true }

/-! ## Self-verification loop (`DeepDiveAgent.verifyFindings`) -/

/-- The per-citation loop of `verifyFindings`: each source is passed through
`verifySource` and appended to `linksChecked` in order. -/
def checkSources (historian : Option (String → Bool)) : List Source → List VerifiedLink
  | [] => []
  | s :: rest => verifySource historian s :: checkSources historian rest

/-- The running counters of the `verifyFindings` loop
(`claimsVerified++` / `claimsFailed++`). -/
def tallyVerified : List VerifiedLink → Nat × Nat
  | [] => (0, 0)
  | l :: rest =>
    let t := tallyVerified rest
    if l.verified then (t.1 + 1, t.2) else (t.1, t.2 + 1)

/-- `DeepDiveAgent.verifyFindings` (`src/agents/deepDive.ts`).  The
self-critique call (`performSelfCritique`) is embedded by its outcome
`issuesFound` (the number parsed from the critique response; `0` also covers
the catch branch that assumes no issues).  `overallConfidence` starts at the
investigation's confidence, is rescaled by the verification ratio when at
least one link was checked, and is then reduced by `5` per critique issue,
floored at `0`, when `issuesFound > 0`. -/
def verifyFindings (historian : Option (String → Bool)) (investigation : InvestigationResult)
    (issuesFound : Int) : VerificationReport :=
  let linksChecked := checkSources historian investigation.sources
  let tally := tallyVerified linksChecked
  let claimsVerified := tally.1
  let claimsFailed := tally.2
  let overallConfidence : Int :=
    if 0 < linksChecked.length then
      round ((investigation.confidence : ℚ) * ((claimsVerified : ℚ) / (linksChecked.length : ℚ)))
    else investigation.confidence
  let overallConfidence : Int :=
    if 0 < issuesFound then max 0 (overallConfidence - issuesFound * 5) else overallConfidence
  ⟨claimsVerified, claimsFailed, linksChecked, overallConfidence⟩

/-- The intermediate ratio-rescaled confidence of `verifyFindings`, before the
critique penalty: with `k` verified citations out of `m` checked, the
confidence is `round(confidence * k/m)` when `m > 0` and is left unchanged
when `m = 0`. -/
def ratioScaledConfidence (confidence : Int) (k m : Nat) : Int :=
  if 0 < m then round ((confidence : ℚ) * ((k : ℚ) / (m : ℚ))) else confidence

/-! ## Retry loop of `LeadDetectiveAgent.investigate` (`src/agents/leadDetective.ts`) -/

/-- Outcome of one `generateContent` call: generated text, or a thrown error
carrying the optional `status` and `code` fields inspected by the handler. -/
inductive GenOutcome where
  | ok (text : String)
  | err (status : Option Int) (code : Option Int)
deriving DecidableEq, Repr

/-- `error?.status || error?.code` with JavaScript `||` falsiness (a `0`
status falls through to `code`). -/
def effectiveStatus : Option Int → Option Int → Option Int
  | some s, c => if s = 0 then c else some s
  | none, c => c

/-- Result of the whole `investigate` call: the response text handed to the
parser, or the message of the thrown error. -/
inductive CallResult where
  | ok (text : String)
  | error (message : String)
deriving DecidableEq, Repr

/-- The observable behaviour of one `investigate` call: how many attempts were
made, which backoff delays (in milliseconds) were awaited between attempts,
and whether a parsed response text or a thrown error resulted. -/
structure RetryTrace where
  attempts : Nat
  delays : List Nat
  outcome : CallResult
deriving DecidableEq, Repr

/-- `const maxRetries = 3` of `LeadDetectiveAgent.investigate`. -/
def maxRetries : Nat := 3

/-- The `for (let attempt = 0; attempt < maxRetries; attempt++)` loop of
`LeadDetectiveAgent.investigate`.  `f attempt` is the outcome of the
Reasoning Service call of that attempt.  On a 503/429 error with
`attempt < maxRetries - 1` the loop sleeps `2^attempt * 1000` milliseconds and
continues; any other error (or a retryable error on the last attempt) is
rethrown immediately as `Investigation failed`.  The first argument is the
loop fuel, `maxRetries` at the entry point, so the fuel-exhaustion branch is
the (unreachable) fall-through after the loop. -/
def investigateAttempts (f : Nat → GenOutcome) : Nat → Nat → List Nat → RetryTrace
  | 0, attempt, acc => ⟨attempt, acc.reverse, CallResult.error "loop-exhausted"⟩
  | fuel + 1, attempt, acc =>
    match f attempt with
    | .ok text => ⟨attempt + 1, acc.reverse, CallResult.ok text⟩
    | .err status code =>
      let s := effectiveStatus status code
      if (s = some 503 ∨ s = some 429) ∧ attempt < maxRetries - 1 then
        investigateAttempts f fuel (attempt + 1) (2 ^ attempt * 1000 :: acc)
      else
        ⟨attempt + 1, acc.reverse, CallResult.error "Investigation failed"⟩

/-- `LeadDetectiveAgent.investigate`, observed as its retry trace. -/
def leadInvestigate (f : Nat → GenOutcome) : RetryTrace :=
  investigateAttempts f maxRetries 0 []

/-- An attempt outcome that takes the retry branch: a thrown error whose
effective status is 503 (overloaded) or 429 (rate-limited). -/
def overloadOutcome : GenOutcome → Prop
  | .ok _ => False
  | .err status code =>
    effectiveStatus status code = some 503 ∨ effectiveStatus status code = some 429

/-! ## Dependency tree (`DeepDiveAgent.buildDependencyTree`) -/

/-- `DependencyNode` of `src/agents/deepDive.ts` (`type` kept as the string
literal of the source). -/
inductive DependencyNode where
  | node (file : String) (ntype : String) (children : List DependencyNode)
      (investigated : Bool)
deriving Repr

/-- `DeepDiveAgent.buildDependencyTree`, recursing on the remaining depth
`maxDepth - currentDepth` (the source stops with `currentDepth >= maxDepth`,
i.e. exactly when the remaining depth is `0`, and recurses with
`currentDepth + 1`).  `isRoot` records `currentDepth === 0`, which selects the
`'root'` node type.  `resolveImports f` is the list of import specifiers of
file `f` that `resolveImportPath` resolves to an existing file, in source
order (unresolvable imports are dropped by the source's `null` check, and a
file whose read fails resolves to the empty list).  `explored` is
`this.exploredFiles` at the time of the call, which `buildDependencyTree`
reads but never writes. -/
def buildDependencyTreeAux (resolveImports : String → List String) (explored : List String)
    (filePath : String) (isRoot : Bool) : Nat → DependencyNode
  | 0 => .node filePath (if isRoot then "root" else "import") [] false
  | d + 1 =>
    .node filePath (if isRoot then "root" else "import")
      ((resolveImports filePath).filterMap fun p =>
        if explored.contains p then none
        else some (buildDependencyTreeAux resolveImports explored p false d))
      false

/-- Entry point of `buildDependencyTree`: called with `currentDepth = 0`, so
the remaining depth is `maxDepth` and the node type is `'root'`. -/
def buildDependencyTree (resolveImports : String → List String) (explored : List String)
    (filePath : String) (maxDepth : Nat) : DependencyNode :=
  buildDependencyTreeAux resolveImports explored filePath true maxDepth

/-- The children of a dependency node. -/
def childrenOf : DependencyNode → List DependencyNode
  | .node _ _ children _ => children

/-- The file of a dependency node. -/
def fileOf : DependencyNode → String
  | .node file _ _ _ => file

/-- All nodes of a dependency tree at distance exactly `k` from the root. -/
def nodesAtDepth : Nat → DependencyNode → List DependencyNode
  | 0, n => [n]
  | k + 1, n => (childrenOf n).flatMap (nodesAtDepth k)

/-! ## Autonomous exploration (`DeepDiveAgent.exploreRelatedFiles`) -/

/-- The mutable exploration state shared by reference across the recursion of
`exploreRelatedFiles`: `this.exploredFiles` (as the list of its members in
insertion order) and the keys of the `results` map in insertion order.  The
`remaining` budget is deliberately NOT part of this state: the source passes
it by value, so a recursive call's decrements are invisible to its caller. -/
structure ExploreState where
  explored : List String
  results : List String
deriving DecidableEq, Repr

/-- The `for (const child of node.children)` loop of
`DeepDiveAgent.exploreRelatedFiles`, returning the final shared state and the
caller's final `remaining` value.  `readable f = true` means the `try` block
succeeds for file `f` (the file can be read and its sub-investigation
completes; a failure skips the child without decrementing the budget).
For each unexplored readable child the loop adds the child to the explored
set and the results map (`investigateFile` + `results.set`), decrements its
local `remaining`, and recurses into the child's children with the
decremented value — whose further decrements the loop then discards,
exactly as the source's pass-by-value `remaining` does.  The `Nat` fuel
argument (decremented on every recursive call) makes the recursion
structural; any fuel of at least the node count of the tree is exact. -/
def exploreChildrenStep (readable : String → Bool) :
    Nat → List DependencyNode → ExploreState → Nat → ExploreState × Nat
  | 0, _, st, rem => (st, rem)
  | _ + 1, [], st, rem => (st, rem)
  | fuel + 1, .node f _ grand _ :: cs, st, rem =>
    if rem = 0 then (st, rem)
    else if st.explored.contains f then exploreChildrenStep readable fuel cs st rem
    else if readable f then
      let st1 : ExploreState := ⟨st.explored ++ [f], st.results ++ [f]⟩
      let rem1 := rem - 1
      let st2 := if rem1 = 0 then st1 else (exploreChildrenStep readable fuel grand st1 rem1).1
      exploreChildrenStep readable fuel cs st2 rem1
    else exploreChildrenStep readable fuel cs st rem

/-- `DeepDiveAgent.exploreRelatedFiles` on a node (the entry call of
`deepDive` passes the dependency-tree root, the state after the main
investigation, and the budget `maxFiles - 1`). -/
def exploreRelatedFiles (readable : String → Bool) (fuel : Nat) (n : DependencyNode)
    (st : ExploreState) (remaining : Nat) : ExploreState :=
  if remaining = 0 then st
  else (exploreChildrenStep readable fuel (childrenOf n) st remaining).1

/-! ## Evidence-gathering pipeline (`Investigator.investigate`, steps 1-5) -/

/-- Stubbed leaf collaborators of one pipeline run: each field is the outcome
of the corresponding provider call, `none` meaning the call threw or returned
nothing (the pipeline's `try/catch`/null checks skip the step either way). -/
structure Providers where
  blame : Option BlameData
  commitInfo : String → Option CommitInfo
  ownerRepo : Option (String × String)
  findPRByCommit : String → Option PRData
  getIssue : Nat → Option IssueData
  fileHistory : Option (List CommitInfo)

/-- `evidence.find(e => e.type === 'blame')`. -/
def findBlameEvidence : List Evidence → Option BlameData
  | [] => none
  | .blame b :: _ => some b
  | _ :: rest => findBlameEvidence rest

/-- `evidence.find(e => e.type === 'pr')`. -/
def findPrEvidence : List Evidence → Option PRData
  | [] => none
  | .pr p :: _ => some p
  | _ :: rest => findPrEvidence rest

/-- The first issue evidence whose number equals `n`
(`evidence.find(e => e.type === 'issue' && e.data.number.toString() === num)`). -/
def findIssueEvidence (n : Nat) : List Evidence → Option IssueData
  | [] => none
  | .issue i :: rest => if i.number = n then some i else findIssueEvidence n rest
  | _ :: rest => findIssueEvidence n rest

/-- `Investigator.gatherBlameData`: push blame evidence when the blame call
succeeds. -/
def gatherBlameData (p : Providers) (ev : List Evidence) : List Evidence :=
  match p.blame with
  | some b => ev ++ [.blame b]
  | none => ev

/-- `Investigator.gatherCommitInfo`: requires blame evidence, then pushes the
commit detail for the blamed hash when the lookup succeeds. -/
def gatherCommitInfo (p : Providers) (ev : List Evidence) : List Evidence :=
  match findBlameEvidence ev with
  | none => ev
  | some b =>
    match p.commitInfo b.commitHash with
    | some c => ev ++ [.commit c]
    | none => ev

/-- `Investigator.gatherPRData`: requires blame evidence and a resolved
owner/repo (from the selection or the remote), then pushes the PR found for
the blamed commit when one exists. -/
def gatherPRData (p : Providers) (ev : List Evidence) : List Evidence :=
  match findBlameEvidence ev with
  | none => ev
  | some b =>
    match p.ownerRepo with
    | none => ev
    | some _ =>
      match p.findPRByCommit b.commitHash with
      | some pr => ev ++ [.pr pr]
      | none => ev

/-- The owner/repo extraction
`pr.url?.match(/github\.com\/([^/]+)\/([^/]+)/)` of `gatherIssueData`:
the two non-empty path segments after the first `github.com/`. -/
def parseOwnerRepo (url : String) : Option (String × String) :=
  match url.splitOn "github.com/" with
  | _ :: rest :: _ =>
    match rest.splitOn "/" with
    | owner :: repo :: _ => if owner ≠ "" ∧ repo ≠ "" then some (owner, repo) else none
    | [owner] => if owner ≠ "" then none else none
    | [] => none
  | _ => none

/-- The issue loop of `gatherIssueData` over the first five linked issues. -/
def gatherIssuesLoop (p : Providers) : List Nat → List Evidence → List Evidence
  | [], ev => ev
  | n :: rest, ev =>
    match p.getIssue n with
    | some i => gatherIssuesLoop p rest (ev ++ [.issue i])
    | none => gatherIssuesLoop p rest ev

/-- `Investigator.gatherIssueData`: requires PR evidence with a non-empty
`linkedIssues` list and a GitHub URL from which owner/repo can be parsed,
then looks up at most the first five linked issues. -/
def gatherIssueData (p : Providers) (ev : List Evidence) : List Evidence :=
  match findPrEvidence ev with
  | none => ev
  | some pr =>
    if pr.linkedIssues.length = 0 then ev
    else
      match parseOwnerRepo pr.url with
      | none => ev
      | some _ => gatherIssuesLoop p (pr.linkedIssues.take 5) ev

/-- `Investigator.gatherFileHistory`: push the bounded file history when the
call succeeds. -/
def gatherFileHistory (p : Providers) (ev : List Evidence) : List Evidence :=
  match p.fileHistory with
  | some cs => ev ++ [.fileHistory cs]
  | none => ev

/-- Steps 1-5 of `Investigator.investigate`: the fixed best-effort sequence
blame, commit, PR, issues, file history, starting from the empty evidence
list of a fresh case. -/
def gatherEvidence (p : Providers) : List Evidence :=
  gatherFileHistory p (gatherIssueData p (gatherPRData p (gatherCommitInfo p (gatherBlameData p []))))

/-! ## Timeline (`LeadDetectiveAgent.buildTimeline`) -/

/-- `message.split('\n')[0]`. -/
def headLine (s : String) : String :=
  ⟨takeUntilChar '\n' s.data⟩

/-- The timeline events contributed by one evidence item (the `switch` body of
`buildTimeline`): one event per blame/commit/issue item, one or two per PR
item (created, plus merged when `mergedAt` is set), none for file history. -/
def timelineOfEvidence : Evidence → List TimelineEvent
  | .blame b =>
    [⟨b.timestamp, "blame", "Code Authored", "Line " ++ toString b.lineNumber ++ " written",
      b.author, b.commitHash.take 7, none⟩]
  | .commit c =>
    [⟨c.date, "commit", (headLine c.message).take 60, c.message, c.author, c.hash.take 7, none⟩]
  | .pr p =>
    ⟨p.createdAt, "pr", "PR #" ++ toString p.number ++ ": " ++ p.title, p.body.take 200,
      p.author, "PR#" ++ toString p.number, some p.url⟩ ::
    (match p.mergedAt with
     | some d =>
       [⟨d, "pr", "PR #" ++ toString p.number ++ " Merged", "Pull request merged",
         p.author, "PR#" ++ toString p.number, some p.url⟩]
     | none => [])
  | .issue i =>
    [⟨i.createdAt, "issue", "Issue #" ++ toString i.number ++ ": " ++ i.title,
      i.body.take 200, i.author, "Issue#" ++ toString i.number, some i.url⟩]
  | .fileHistory _ => []

/-- Stable insertion into a date-sorted list: the new event goes before the
first strictly later event, after equal dates (the behaviour of the stable
`events.sort((a, b) => a.date.getTime() - b.date.getTime())`). -/
def insertByDate (e : TimelineEvent) : List TimelineEvent → List TimelineEvent
  | [] => [e]
  | x :: xs => if e.date.ms ≤ x.date.ms then e :: x :: xs else x :: insertByDate e xs

/-- Stable ascending sort by `date.getTime()`. -/
def sortByDate : List TimelineEvent → List TimelineEvent
  | [] => []
  | e :: es => insertByDate e (sortByDate es)

/-- `LeadDetectiveAgent.buildTimeline`: events derived from the evidence in
order, sorted ascending by date. -/
def buildTimeline (ev : List Evidence) : List TimelineEvent :=
  sortByDate (ev.flatMap timelineOfEvidence)

/-! ## Source extraction (`LeadDetectiveAgent.extractSources`) -/

/-- The evidence check guarding a commit citation: some commit evidence whose
hash starts with the cited token, or some blame evidence whose commit hash
does. -/
def evidenceMatchesCommitHash (hash : String) : Evidence → Bool
  | .commit c => strStartsWith c.hash hash
  | .blame b => strStartsWith b.commitHash hash
  | _ => false

/-- The commit-citation loop of `extractSources`: for each hash-like token of
the response (the matches of `/\b([a-f0-9]{7,40})\b/gi`, passed as
`mentions`), push a commit source onto the accumulated list exactly when some
evidence matches the token and no accumulated source already has that id. -/
def extractCommitSources (ev : List Evidence) : List String → List Source → List Source
  | [], acc => acc
  | hash :: rest, acc =>
    if ev.any (evidenceMatchesCommitHash hash) ∧ ¬ acc.any (fun s => s.id = hash) then
      extractCommitSources ev rest
        (acc ++ [⟨SrcType.commit, hash, none, "Commit " ++ hash.take 7⟩])
    else extractCommitSources ev rest acc

/-- The PR-citation loop of `extractSources`: for each number of a
`PR #N`-style match, push a PR source when the (first) PR evidence has that
number and no accumulated source already has id `PR#N`. -/
def extractPrSources (ev : List Evidence) : List Nat → List Source → List Source
  | [], acc => acc
  | num :: rest, acc =>
    match findPrEvidence ev with
    | none => extractPrSources ev rest acc
    | some pr =>
      if pr.number = num ∧ ¬ acc.any (fun s => s.id = "PR#" ++ toString num) then
        extractPrSources ev rest
          (acc ++ [⟨SrcType.pr, "PR#" ++ toString num, some pr.url, pr.title⟩])
      else extractPrSources ev rest acc

/-- The issue-citation loop of `extractSources`: for each number of an
`issue #N`-style match, push an issue source when some issue evidence has that
number (the source performs no deduplication here). -/
def extractIssueSources (ev : List Evidence) : List Nat → List Source → List Source
  | [], acc => acc
  | num :: rest, acc =>
    match findIssueEvidence num ev with
    | none => extractIssueSources ev rest acc
    | some i =>
      extractIssueSources ev rest
        (acc ++ [⟨SrcType.issue, "Issue#" ++ toString num, some i.url, i.title⟩])

/-- `LeadDetectiveAgent.extractSources`.  The three regular-expression scans
of the response text are embedded by their match lists: `commitMentions` for
`/\b([a-f0-9]{7,40})\b/gi`, `prMentions` for `/(?:PR|pull request)\s*#?(\d+)/gi`
and `issueMentions` for `/(?:issue)\s*#?(\d+)/gi`; the theorem below is
quantified over every possible match list, hence over every response text. -/
def extractSources (commitMentions : List String) (prMentions issueMentions : List Nat)
    (ev : List Evidence) : List Source :=
  extractIssueSources ev issueMentions
    (extractPrSources ev prMentions
      (extractCommitSources ev commitMentions []))

/-- A source citation is supported by the case's evidence: commit citations by
a commit/blame evidence item whose hash extends the cited token, PR and issue
citations by a PR/issue evidence item with the cited number. -/
def sourceSupported (ev : List Evidence) (s : Source) : Prop :=
  match s.type with
  | SrcType.commit => ∃ e ∈ ev, evidenceMatchesCommitHash s.id e = true
  | SrcType.pr => ∃ p : PRData, Evidence.pr p ∈ ev ∧ s.id = "PR#" ++ toString p.number
  | SrcType.issue => ∃ i : IssueData, Evidence.issue i ∈ ev ∧ s.id = "Issue#" ++ toString i.number
  | SrcType.comment => False

/-! ## Markdown export (`Investigator.generateMarkdownExport`) -/

/-- `MarkdownExport` of `src/agents/types.ts`. -/
structure MarkdownExport where
  content : String
  filename : String
deriving DecidableEq, Repr

/-- `e.date.toISOString().split('T')[0]`. -/
def isoDay (d : JsDate) : String :=
  ⟨takeUntilChar 'T' d.iso.data⟩

/-- Upper-casing of the source-citation type (`s.type.toUpperCase()`). -/
def srcTypeUpper : SrcType → String
  | SrcType.commit => "COMMIT"
  | SrcType.pr => "PR"
  | SrcType.issue => "ISSUE"
  | SrcType.comment => "COMMENT"

/-- One row of the timeline table of `generateMarkdownExport`. -/
def timelineRow (e : TimelineEvent) : String :=
  "| " ++ isoDay e.date ++ " | " ++ e.title.take 40 ++ " | " ++ e.author ++ " | " ++
    (match e.sourceUrl with
     | some u => if u = "" then e.sourceId else "[" ++ e.sourceId ++ "](" ++ u ++ ")"
     | none => e.sourceId) ++ " |"

/-- One line of the sources section of `generateMarkdownExport`. -/
def sourceLine (s : Source) : String :=
  "- **" ++ srcTypeUpper s.type ++ "** " ++
    (match s.url with
     | some u => if u = "" then s.id else "[" ++ s.id ++ "](" ++ u ++ ")"
     | none => s.id) ++ ": " ++ s.description

/-- One line of the recommendations section of `generateMarkdownExport`. -/
def recommendationLine (r : Recommendation) : String :=
  "- **" ++ asciiUpper r.action ++ "** (" ++ r.priority ++ " priority): " ++ r.reason

/-- The title block of the export, including the `**Generated:**` line that
renders the wall clock read by `new Date().toISOString()` at call time. -/
def mdHeaderBlock (nowIso : String) (confidence : Int) : String :=
  "# Code Archaeology Investigation Report\n\n**Generated:** " ++ nowIso ++
    "\n**Confidence:** " ++ toString confidence ++ "%"

/-- One `## <title>` section of the export. -/
def mdSectionBlock (title body : String) : String :=
  "\n\n## " ++ title ++ "\n\n" ++ body

/-- The timeline table (header plus one row per event). -/
def mdTimelineTable (timeline : List TimelineEvent) : String :=
  "| Date | Event | Author | Source |\n|------|-------|--------|--------|\n" ++
    String.intercalate "\n" (timeline.map timelineRow)

/-- The sources section body. -/
def mdSourcesBlock (sources : List Source) : String :=
  String.intercalate "\n" (sources.map sourceLine)

/-- The recommendations section body. -/
def mdRecommendationsBlock (recs : List Recommendation) : String :=
  String.intercalate "\n" (recs.map recommendationLine)

/-- The closing separator of the export. -/
def mdFooter : String :=
  "\n\n---\n\n*Generated by The Repo Archaeologist*\n"

/-- `Investigator.generateMarkdownExport` (`src/investigator.ts`).  The two
wall-clock reads of the source are passed explicitly: `nowIso` for
`new Date().toISOString()` in the `**Generated:**` line and `nowMs` for the
`Date.now()` in the filename; everything else is computed from the result. -/
def generateMarkdownExport (nowIso : String) (nowMs : Int)
    (result : InvestigationResult) : MarkdownExport :=
  { content :=
      mdHeaderBlock nowIso result.confidence ++
        mdSectionBlock "Summary" result.summary ++
        mdSectionBlock "Investigation Narrative" result.narrative ++
        mdSectionBlock "Timeline" (mdTimelineTable result.timeline) ++
        mdSectionBlock "Sources" (mdSourcesBlock result.sources) ++
        mdSectionBlock "Recommendations" (mdRecommendationsBlock result.recommendations) ++
        mdFooter,
    filename := "investigation-" ++ toString nowMs ++ ".md" }

/-- Modelled from the spec: "a deterministic Markdown rendering of an
InvestigationResult (fixed section order: summary, narrative, timeline table,
sources, recommendations) — a pure function of the result, no additional
state", amended by the generated-at clock reading the source embeds in the
header.  The body is assembled by folding the ordered section list. -/
def markdownRenderFromSpec (nowIso : String) (r : InvestigationResult) : String :=
  let sections : List (String × String) :=
    [("Summary", r.summary),
     ("Investigation Narrative", r.narrative),
     ("Timeline", mdTimelineTable r.timeline),
     ("Sources", mdSourcesBlock r.sources),
     ("Recommendations", mdRecommendationsBlock r.recommendations)]
  mdHeaderBlock nowIso r.confidence ++
    String.join (sections.map fun s => mdSectionBlock s.1 s.2) ++ mdFooter

/-! ## Concrete instances used by witnesses and counterexamples -/

/-- A concrete parsed investigation result (confidence 80, one commit and one
PR citation) used to witness the verification-side clamping. -/
def invC5 : InvestigationResult :=
  { narrative := "n", summary := "s", confidence := 80,
    sources := [⟨SrcType.commit, "abc1234", none, "Commit abc1234"⟩,
                ⟨SrcType.pr, "PR#7", some "https://github.com/acme/widgets/pull/7", "Fix"⟩],
    recommendations := [], timeline := [] }

/-- Import resolution of the C7 scenario: the root imports two resolvable
local files, each of which imports one further local file. -/
def c7Imports : String → List String := fun f =>
  if f = "root.ts" then ["a.ts", "b.ts"]
  else if f = "a.ts" then ["a1.ts"]
  else if f = "b.ts" then ["b1.ts"]
  else []

/-- The dependency tree of the C1 failing input: the root imports `a.ts` and
`b.ts`, and `a.ts` imports `a1.ts` (as `buildDependencyTree` discovers with
`maxDepth ≥ 2`). -/
def c1Tree : DependencyNode :=
  .node "root.ts" "root"
    [.node "a.ts" "import" [.node "a1.ts" "import" [] false] false,
     .node "b.ts" "import" [] false]
    false

/-- Blame stub of the C6 scenario: the selection's midpoint line is blamed on
commit `abc1234`. -/
def blameC6 : BlameData :=
  { commitHash := "abc1234", author := "Alice", authorEmail := "alice@example.com",
    timestamp := ⟨1500000000000, "2017-07-14T02:40:00.000Z"⟩, lineNumber := 12,
    lineContent := "scheduleLane(task);" }

/-- Commit stub of the C6 scenario. -/
def commitC6 : CommitInfo :=
  { hash := "abc1234", author := "Alice", authorEmail := "alice@example.com",
    date := ⟨1500000000000, "2017-07-14T02:40:00.000Z"⟩,
    message := "Fix race condition in lane scheduler (#512)",
    diff := "@@ -1 +1 @@", changedFiles := ["scheduler.ts"] }

/-- Closed issue 512 of the C6 scenario. -/
def issueC6 : IssueData :=
  { number := 512, title := "Race condition in lane scheduler",
    body := "Lanes can be scheduled twice.", author := "Bob", state := "closed",
    url := "https://github.com/acme/widgets/issues/512",
    createdAt := ⟨1499000000000, "2017-07-02T12:53:20.000Z"⟩, labels := ["bug"] }

/-- The stubbed collaborators of the C6 scenario: blame succeeds with
`abc1234`, the commit lookup for `abc1234` succeeds, no PR is found, issue
512 exists and is closed, and the file-history call is not stubbed (it
fails). -/
def providersC6 : Providers :=
  { blame := some blameC6,
    commitInfo := fun h => if h = "abc1234" then some commitC6 else none,
    ownerRepo := some ("acme", "widgets"),
    findPRByCommit := fun _ => none,
    getIssue := fun n => if n = 512 then some issueC6 else none,
    fileHistory := none }

/-- A concrete investigation result used to exhibit the clock dependence of
the Markdown export. -/
def resultC8 : InvestigationResult :=
  { narrative := "The scheduler guards a race.", summary := "Race-condition fix.",
    confidence := 90,
    sources := [⟨SrcType.commit, "abc1234", none, "Commit abc1234"⟩],
    recommendations := [⟨"keep", "Still load-bearing.", "medium"⟩],
    timeline := [⟨⟨1500000000000, "2017-07-14T02:40:00.000Z"⟩, "commit",
      "Fix race condition in lane scheduler (#512)",
      "Fix race condition in lane scheduler (#512)", "Alice", "abc1234", none⟩] }

/-! ## Helper lemmas -/

theorem round_le_round_of_le {x y : ℚ} (h : x ≤ y) : round x ≤ round y := by
  rw [round_eq, round_eq]
  exact Int.floor_le_floor (by linarith)

theorem round_nonneg_of_nonneg {x : ℚ} (h : 0 ≤ x) : 0 ≤ round x := by
  rw [round_eq]
  exact Int.floor_nonneg.2 (by linarith)

/-- The loop counters of `verifyFindings` count the verified and the failed
links. -/
theorem tallyVerified_eq (links : List VerifiedLink) :
    tallyVerified links =
      ((links.filter (fun l => l.verified)).length,
        (links.filter (fun l => !l.verified)).length) := by
  induction links with
  | nil => rfl
  | cons l rest ih =>
    simp only [tallyVerified, ih, List.filter_cons]
    cases h : l.verified <;> simp [h]

/-- The number of verified links never exceeds the number of checked links. -/
theorem tallyVerified_fst_le (links : List VerifiedLink) :
    (tallyVerified links).1 ≤ links.length := by
  rw [tallyVerified_eq]
  exact List.length_filter_le _ _

/-! ## Claim theorems -/

/-- C3: in `verifyFindings`, with `k` verified citations out of `m` checked
citations, the confidence reported before the critique penalty equals
`round(original confidence × k/m)` when `m > 0` and is the unchanged original
confidence when `m = 0`; afterwards the critique penalty subtracts `5` per
issue found, floored at `0`; and the final `overallConfidence` is exactly the
critique adjustment applied to the ratio-scaled value, i.e. the two
adjustments are applied in that fixed order. -/
theorem c3_verification_scaling (historian : Option (String → Bool))
    (investigation : InvestigationResult) (issuesFound : Int) :
    (verifyFindings historian investigation issuesFound).claimsVerified =
      ((verifyFindings historian investigation issuesFound).linksChecked.filter
        (fun l => l.verified)).length ∧
    ratioScaledConfidence investigation.confidence
        (verifyFindings historian investigation issuesFound).claimsVerified
        (verifyFindings historian investigation issuesFound).linksChecked.length =
      (if 0 < (verifyFindings historian investigation issuesFound).linksChecked.length then
        round ((investigation.confidence : ℚ) *
          (((verifyFindings historian investigation issuesFound).claimsVerified : ℚ) /
            ((verifyFindings historian investigation issuesFound).linksChecked.length : ℚ)))
       else investigation.confidence) ∧
    (verifyFindings historian investigation issuesFound).overallConfidence =
      (if 0 < issuesFound then
        max 0 (ratioScaledConfidence investigation.confidence
          (verifyFindings historian investigation issuesFound).claimsVerified
          (verifyFindings historian investigation issuesFound).linksChecked.length
            - issuesFound * 5)
       else
        ratioScaledConfidence investigation.confidence
          (verifyFindings historian investigation issuesFound).claimsVerified
          (verifyFindings historian investigation issuesFound).linksChecked.length) := by
  refine ⟨?_, rfl, ?_⟩
  · simp [verifyFindings, tallyVerified_eq]
  · simp only [verifyFindings, ratioScaledConfidence]

/-- C9: when the first matching confidence pattern captures `0`,
`parseInvestigationResponse` behaves exactly as when no pattern matches at
all: the default applies (92 with evidence, 65 without), and no
`InvestigationResult` can carry a parsed confidence of `0`. -/
theorem c9_zero_confidence_default (evidence : List Evidence) (extracted : Option Nat) :
    parseInvestigationConfidence (some 0) evidence =
      parseInvestigationConfidence none evidence ∧
    parseInvestigationConfidence (some 0) evidence =
      (if 0 < evidence.length then 92 else 65) ∧
    parseInvestigationConfidence extracted evidence ≠ 0 := by
  refine ⟨rfl, ?_, ?_⟩
  · simp only [parseInvestigationConfidence, min_def, max_def]
    split_ifs <;> omega
  · rcases extracted with _ | n
    · simp only [parseInvestigationConfidence, min_def, max_def]
      split_ifs <;> omega
    · simp only [parseInvestigationConfidence, min_def, max_def]
      split_ifs <;> omega

/-- C10: `verifySource` marks every citation whose type is not `commit` as
verified (PR/issue citations with a URL through their URL branch, all other
non-commit cases through the catch-all `else`), so only commit citations can
ever be counted as failed. -/
theorem c10_noncommit_always_verified (historian : Option (String → Bool)) (s : Source) :
    (s.type ≠ SrcType.commit → (verifySource historian s).verified = true) ∧
    ((verifySource historian s).verified = false → s.type = SrcType.commit) := by
  have key : s.type ≠ SrcType.commit → (verifySource historian s).verified = true := by
    intro h
    rcases historian with _ | resolves
    · simp only [verifySource]
      split_ifs <;> rfl
    · simp only [verifySource]
      rw [if_neg h]
      split_ifs <;> rfl
  refine ⟨key, fun h => ?_⟩
  by_contra hne
  rw [key hne] at h
  exact Bool.noConfusion h

/-- Witness for C10 at a concrete input: a PR citation without any URL is
still marked verified (through the catch-all branch). -/
theorem c10_noncommit_always_verified_witness :
    (verifySource none ⟨SrcType.pr, "PR#5", none, "PR without URL"⟩).verified = true :=
  (c10_noncommit_always_verified none ⟨SrcType.pr, "PR#5", none, "PR without URL"⟩).1
    (by decide)

/-- The ratio-scaled confidence stays in `[0, 100]` whenever the incoming
confidence does and at most as many citations are verified as are checked. -/
theorem ratioScaledConfidence_bounds (c : Int) (k m : Nat) (h0 : 0 ≤ c) (h100 : c ≤ 100)
    (hkm : k ≤ m) : 0 ≤ ratioScaledConfidence c k m ∧ ratioScaledConfidence c k m ≤ 100 := by
  unfold ratioScaledConfidence
  split_ifs with hm
  · have hm' : (0 : ℚ) < (m : ℚ) := by exact_mod_cast hm
    have hq0 : (0 : ℚ) ≤ (c : ℚ) * ((k : ℚ) / (m : ℚ)) := by
      apply mul_nonneg
      · exact_mod_cast h0
      · positivity
    have hratio : ((k : ℚ) / (m : ℚ)) ≤ 1 := by
      rw [div_le_one hm']
      exact_mod_cast hkm
    have hqc : (c : ℚ) * ((k : ℚ) / (m : ℚ)) ≤ (c : ℚ) :=
      calc (c : ℚ) * ((k : ℚ) / (m : ℚ)) ≤ (c : ℚ) * 1 :=
            mul_le_mul_of_nonneg_left hratio (by exact_mod_cast h0)
        _ = (c : ℚ) := mul_one _
    refine ⟨round_nonneg_of_nonneg hq0, ?_⟩
    have hr := round_le_round_of_le hqc
    rw [round_intCast] at hr
    omega
  · exact ⟨h0, h100⟩

/-- C5: the confidence stored in an `InvestigationResult` by the response
parser lies in `[0, 100]` for every possible response text (every extraction
outcome), and the `overallConfidence` stored in a `VerificationReport` lies in
`[0, 100]` for every verification outcome, given that the investigation's
confidence is in range (as every parsed result's is, by the first part). -/
theorem c5_confidence_clamped (extracted : Option Nat) (evidence : List Evidence)
    (historian : Option (String → Bool)) (investigation : InvestigationResult)
    (issuesFound : Int)
    (hc : 0 ≤ investigation.confidence ∧ investigation.confidence ≤ 100) :
    (0 ≤ parseInvestigationConfidence extracted evidence ∧
      parseInvestigationConfidence extracted evidence ≤ 100) ∧
    (0 ≤ (verifyFindings historian investigation issuesFound).overallConfidence ∧
      (verifyFindings historian investigation issuesFound).overallConfidence ≤ 100) := by
  constructor
  · constructor <;>
      (simp only [parseInvestigationConfidence, min_def, max_def]; split_ifs <;> omega)
  · have hb := ratioScaledConfidence_bounds investigation.confidence
      (tallyVerified (checkSources historian investigation.sources)).1
      (checkSources historian investigation.sources).length hc.1 hc.2
      (tallyVerified_fst_le _)
    simp only [ratioScaledConfidence] at hb
    simp only [verifyFindings, max_def]
    constructor <;> (split_ifs at hb ⊢ <;> omega)

/-- Witness for C5 at concrete inputs: a response reporting confidence 150 on
an evidence-free case, and a verification run over `invC5` with two critique
issues, both land in `[0, 100]`. -/
theorem c5_confidence_clamped_witness :
    (0 ≤ parseInvestigationConfidence (some 150) [] ∧
      parseInvestigationConfidence (some 150) [] ≤ 100) ∧
    (0 ≤ (verifyFindings none invC5 2).overallConfidence ∧
      (verifyFindings none invC5 2).overallConfidence ≤ 100) :=
  c5_confidence_clamped (some 150) [] none invC5 2 (by decide)

/-- C2 counterexample: when every attempt fails with a 503 overload, the code
makes 3 attempts but waits only 1s and 2s — there is no 4s wait after the
third failed attempt, the fatal error is raised immediately. -/
theorem c2_counterexample :
    (leadInvestigate fun _ => GenOutcome.err (some 503) none).attempts = 3 ∧
    (leadInvestigate fun _ => GenOutcome.err (some 503) none).delays = [1000, 2000] ∧
    ¬(leadInvestigate fun _ => GenOutcome.err (some 503) none).delays = [1000, 2000, 4000] := by
  decide

/-- C2 (amended): when the Reasoning Service call fails with an overload (503)
or rate-limit (429) signal on every attempt, `investigate` makes exactly 3
attempts, waiting 1s after the first failed attempt and 2s after the second,
and raises the fatal failure immediately after the third failed attempt with
no further wait; no partial result is returned. -/
theorem c2_retry_schedule (f : Nat → GenOutcome)
    (h : ∀ i, i < maxRetries → overloadOutcome (f i)) :
    leadInvestigate f = ⟨3, [1000, 2000], CallResult.error "Investigation failed"⟩ := by
  have h0 := h 0 (by decide)
  have h1 := h 1 (by decide)
  have h2 := h 2 (by decide)
  rcases hf0 : f 0 with t0 | ⟨s0, c0⟩
  · rw [hf0] at h0; exact h0.elim
  rcases hf1 : f 1 with t1 | ⟨s1, c1⟩
  · rw [hf1] at h1; exact h1.elim
  rcases hf2 : f 2 with t2 | ⟨s2, c2⟩
  · rw [hf2] at h2; exact h2.elim
  rw [hf0] at h0; rw [hf1] at h1; rw [hf2] at h2
  simp only [overloadOutcome] at h0 h1 h2
  show investigateAttempts f 3 0 [] = _
  rw [show (3 : Nat) = 2 + 1 from rfl]
  simp only [investigateAttempts, hf0, hf1, hf2]
  rw [if_pos ⟨h0, by decide⟩, if_pos ⟨h1, by decide⟩, if_neg (by simp [maxRetries])]
  decide

/-- Witness for C2's amended theorem: the all-503 schedule satisfies the
overload hypothesis and yields the 3-attempt, 1s/2s trace. -/
theorem c2_retry_schedule_witness :
    leadInvestigate (fun _ => GenOutcome.err (some 503) none) =
      ⟨3, [1000, 2000], CallResult.error "Investigation failed"⟩ :=
  c2_retry_schedule (fun _ => GenOutcome.err (some 503) none)
    (fun _ _ => Or.inl rfl)

/-- No node of a depth-bounded dependency tree lies deeper than the remaining
depth budget of the call that built it. -/
theorem nodesAtDepth_buildDependencyTreeAux (resolveImports : String → List String)
    (explored : List String) :
    ∀ (k d : Nat) (filePath : String) (isRoot : Bool), d < k →
      nodesAtDepth k (buildDependencyTreeAux resolveImports explored filePath isRoot d) = [] := by
  intro k
  induction k with
  | zero => intro d f r h; omega
  | succ k ih =>
    intro d f r h
    cases d with
    | zero => simp [nodesAtDepth, buildDependencyTreeAux, childrenOf]
    | succ d' =>
      simp only [nodesAtDepth, buildDependencyTreeAux, childrenOf]
      rw [List.flatMap_eq_nil_iff]
      intro x hx
      rcases List.mem_filterMap.1 hx with ⟨p, _, hpx⟩
      split_ifs at hpx
      have hx' := Option.some.inj hpx
      subst hx'
      exact ih d' p false (by omega)

/-- C7: no `DependencyNode` of a tree built by `buildDependencyTree` with
budget `maxDepth` lies at a depth (distance from the root) exceeding
`maxDepth` — every level beyond `maxDepth` is empty; and in the scenario with
`maxDepth = 1` where the root imports two resolvable local files each of
which imports another local file, the root has exactly those 2 children and
each child has zero children. -/
theorem c7_depth_bound :
    (∀ (resolveImports : String → List String) (explored : List String) (filePath : String)
        (maxDepth k : Nat), maxDepth < k →
      nodesAtDepth k (buildDependencyTree resolveImports explored filePath maxDepth) = []) ∧
    buildDependencyTree c7Imports [] "root.ts" 1 =
      DependencyNode.node "root.ts" "root"
        [DependencyNode.node "a.ts" "import" [] false,
         DependencyNode.node "b.ts" "import" [] false] false := by
  constructor
  · intro ri ex f md k h
    exact nodesAtDepth_buildDependencyTreeAux ri ex k md f true h
  · rfl

/-- Witness for C7 at a concrete input: in the `maxDepth = 1` scenario no
node lies at depth 2. -/
theorem c7_depth_bound_witness :
    nodesAtDepth 2 (buildDependencyTree c7Imports [] "root.ts" 1) = [] :=
  c7_depth_bound.1 c7Imports [] "root.ts" 1 2 (by decide)

/-- C1 (violation exhibited): with `maxFilesToExplore = 3` the budget handed
to `exploreRelatedFiles` is `3 - 1 = 2`, yet on the tree
`root → {a.ts → {a1.ts}, b.ts}` with every file readable the code
investigates the three files `a.ts`, `a1.ts` and `b.ts`: the `remaining`
budget is passed by value into the recursion, so the decrement performed
inside `a.ts`'s subtree is invisible to the loop, which then still
investigates `b.ts`.  The explored set does hold each file only once. -/
theorem c1_fileBudget_overrun :
    (exploreRelatedFiles (fun _ => true) 100 c1Tree ⟨["root.ts"], []⟩ 2).results =
      ["a.ts", "a1.ts", "b.ts"] ∧
    (exploreRelatedFiles (fun _ => true) 100 c1Tree ⟨["root.ts"], []⟩ 2).results.length = 3 ∧
    ¬((exploreRelatedFiles (fun _ => true) 100 c1Tree ⟨["root.ts"], []⟩ 2).results.length ≤ 3 - 1) ∧
    (exploreRelatedFiles (fun _ => true) 100 c1Tree ⟨["root.ts"], []⟩ 2).explored =
      ["root.ts", "a.ts", "a1.ts", "b.ts"] := by
  decide

/-- C6 counterexample: in the stated scenario the pipeline gathers only two
evidence items — blame and commit.  Because no PR is found, `gatherIssueData`
returns before any issue lookup (linked issues are only reached through PR
evidence), so no issue evidence exists and the evidence list does not have 3
items. -/
theorem c6_counterexample :
    gatherEvidence providersC6 = [Evidence.blame blameC6, Evidence.commit commitC6] ∧
    ¬(gatherEvidence providersC6).length = 3 := by
  decide

/-- C6 (amended): in the scenario the Case's evidence list has exactly 2
items (blame, commit) — the issue step is skipped entirely since no PR was
found — and the Timeline has exactly 2 entries, the blame event and the
commit event, sorted ascending by date. -/
theorem c6_scenario_pipeline :
    (gatherEvidence providersC6).length = 2 ∧
    gatherEvidence providersC6 = [Evidence.blame blameC6, Evidence.commit commitC6] ∧
    (buildTimeline (gatherEvidence providersC6)).map TimelineEvent.type = ["blame", "commit"] ∧
    List.Sorted (fun a b => a.date.ms ≤ b.date.ms) (buildTimeline (gatherEvidence providersC6)) := by
  refine ⟨by decide, by decide, by decide, by decide⟩

/-- `findPrEvidence` returns a PR evidence item of the searched list. -/
theorem findPrEvidence_mem {p : PRData} :
    ∀ {ev : List Evidence}, findPrEvidence ev = some p → Evidence.pr p ∈ ev := by
  intro ev
  induction ev with
  | nil => intro h; exact Option.noConfusion h
  | cons e rest ih =>
    intro h
    cases e with
    | pr q =>
      obtain rfl := Option.some.inj h
      exact List.mem_cons_self _ _
    | blame b => exact List.mem_cons_of_mem _ (ih h)
    | commit c => exact List.mem_cons_of_mem _ (ih h)
    | issue i => exact List.mem_cons_of_mem _ (ih h)
    | fileHistory cs => exact List.mem_cons_of_mem _ (ih h)

/-- `findIssueEvidence` returns an issue evidence item of the searched list
carrying the searched number. -/
theorem findIssueEvidence_mem {n : Nat} {i : IssueData} :
    ∀ {ev : List Evidence}, findIssueEvidence n ev = some i →
      Evidence.issue i ∈ ev ∧ i.number = n := by
  intro ev
  induction ev with
  | nil => intro h; exact Option.noConfusion h
  | cons e rest ih =>
    intro h
    cases e with
    | issue j =>
      simp only [findIssueEvidence] at h
      split_ifs at h with hj
      · obtain rfl := Option.some.inj h
        exact ⟨List.mem_cons_self _ _, hj⟩
      · obtain ⟨hm, hn⟩ := ih h
        exact ⟨List.mem_cons_of_mem _ hm, hn⟩
    | blame b =>
      obtain ⟨hm, hn⟩ := ih h
      exact ⟨List.mem_cons_of_mem _ hm, hn⟩
    | commit c =>
      obtain ⟨hm, hn⟩ := ih h
      exact ⟨List.mem_cons_of_mem _ hm, hn⟩
    | pr q =>
      obtain ⟨hm, hn⟩ := ih h
      exact ⟨List.mem_cons_of_mem _ hm, hn⟩
    | fileHistory cs =>
      obtain ⟨hm, hn⟩ := ih h
      exact ⟨List.mem_cons_of_mem _ hm, hn⟩

/-- Every source produced by the commit-citation loop beyond the accumulator
is a commit citation matched by some evidence item. -/
theorem mem_extractCommitSources {ev : List Evidence} {s : Source} :
    ∀ {mentions : List String} {acc : List Source},
      s ∈ extractCommitSources ev mentions acc →
      s ∈ acc ∨ (s.type = SrcType.commit ∧
        ev.any (evidenceMatchesCommitHash s.id) = true) := by
  intro mentions
  induction mentions with
  | nil => intro acc h; exact Or.inl h
  | cons hash rest ih =>
    intro acc h
    simp only [extractCommitSources] at h
    split_ifs at h with hc
    · rcases ih h with hmem | hnew
      · rcases List.mem_append.1 hmem with h1 | h2
        · exact Or.inl h1
        · have hs : s = ⟨SrcType.commit, hash, none, "Commit " ++ hash.take 7⟩ := by
            simpa using h2
          subst hs
          exact Or.inr ⟨rfl, hc.1⟩
      · exact Or.inr hnew
    · exact ih h

/-- Every source produced by the PR-citation loop beyond the accumulator is a
PR citation whose number belongs to a PR evidence item. -/
theorem mem_extractPrSources {ev : List Evidence} {s : Source} :
    ∀ {mentions : List Nat} {acc : List Source},
      s ∈ extractPrSources ev mentions acc →
      s ∈ acc ∨ (s.type = SrcType.pr ∧
        ∃ p : PRData, Evidence.pr p ∈ ev ∧ s.id = "PR#" ++ toString p.number) := by
  intro mentions
  induction mentions with
  | nil => intro acc h; exact Or.inl h
  | cons num rest ih =>
    intro acc h
    rcases hfind : findPrEvidence ev with _ | p
    · simp only [extractPrSources, hfind] at h
      exact ih h
    · simp only [extractPrSources, hfind] at h
      split_ifs at h with hc
      · rcases ih h with hmem | hnew
        · rcases List.mem_append.1 hmem with h1 | h2
          · exact Or.inl h1
          · have hs : s = ⟨SrcType.pr, "PR#" ++ toString num, some p.url, p.title⟩ := by
              simpa using h2
            subst hs
            refine Or.inr ⟨rfl, p, findPrEvidence_mem hfind, ?_⟩
            rw [hc.1]
        · exact Or.inr hnew
      · exact ih h

/-- Every source produced by the issue-citation loop beyond the accumulator
is an issue citation whose number belongs to an issue evidence item. -/
theorem mem_extractIssueSources {ev : List Evidence} {s : Source} :
    ∀ {mentions : List Nat} {acc : List Source},
      s ∈ extractIssueSources ev mentions acc →
      s ∈ acc ∨ (s.type = SrcType.issue ∧
        ∃ i : IssueData, Evidence.issue i ∈ ev ∧ s.id = "Issue#" ++ toString i.number) := by
  intro mentions
  induction mentions with
  | nil => intro acc h; exact Or.inl h
  | cons num rest ih =>
    intro acc h
    rcases hfind : findIssueEvidence num ev with _ | i
    · simp only [extractIssueSources, hfind] at h
      exact ih h
    · simp only [extractIssueSources, hfind] at h
      rcases ih h with hmem | hnew
      · rcases List.mem_append.1 hmem with h1 | h2
        · exact Or.inl h1
        · have hs : s = ⟨SrcType.issue, "Issue#" ++ toString num, some i.url, i.title⟩ := by
            simpa using h2
          subst hs
          obtain ⟨hm, hn⟩ := findIssueEvidence_mem hfind
          refine Or.inr ⟨rfl, i, hm, ?_⟩
          rw [hn]
      · exact Or.inr hnew

/-- C4: every source in the list produced by `extractSources` is supported by
an evidence item of the originating case — a commit source only when some
commit or blame evidence has a hash starting with the cited token, a PR
source only when PR evidence with that number exists, an issue source only
when issue evidence with that number exists.  Mentions without matching
evidence are never promoted (the mention lists range over every possible
response text). -/
theorem c4_sources_supported (commitMentions : List String) (prMentions issueMentions : List Nat)
    (ev : List Evidence) (s : Source)
    (hs : s ∈ extractSources commitMentions prMentions issueMentions ev) :
    sourceSupported ev s := by
  unfold extractSources at hs
  rcases mem_extractIssueSources hs with hs1 | ⟨hty, i, hi, hid⟩
  · rcases mem_extractPrSources hs1 with hs2 | ⟨hty, p, hp, hid⟩
    · rcases mem_extractCommitSources hs2 with hs3 | ⟨hty, hany⟩
      · exact absurd hs3 (List.not_mem_nil _)
      · simp only [sourceSupported, hty]
        exact List.any_eq_true.1 hany
    · simp only [sourceSupported, hty]
      exact ⟨p, hp, hid⟩
  · simp only [sourceSupported, hty]
    exact ⟨i, hi, hid⟩

/-- Witness for C4 at a concrete input: the narrative mentions hash
`abc1234`, blame evidence for that hash exists, and the promoted commit
source is supported. -/
theorem c4_sources_supported_witness :
    sourceSupported [Evidence.blame blameC6]
      ⟨SrcType.commit, "abc1234", none, "Commit abc1234"⟩ :=
  c4_sources_supported ["abc1234"] [] [] [Evidence.blame blameC6]
    ⟨SrcType.commit, "abc1234", none, "Commit abc1234"⟩ (by decide)

set_option maxRecDepth 16384 in
/-- C8 counterexample: two calls of `generateMarkdownExport` on the very same
result but at different clock readings produce different Markdown (the
`**Generated:**` line embeds the call-time `new Date().toISOString()`, and
the filename embeds `Date.now()`), so the export is not a pure function of
the result alone. -/
theorem c8_counterexample :
    ¬(generateMarkdownExport "2026-01-01T00:00:00.000Z" 1767225600000 resultC8 =
      generateMarkdownExport "2026-01-02T00:00:00.000Z" 1767312000000 resultC8) := by
  decide

/-- C8 (amended): `generateMarkdownExport` is a deterministic pure function
of the result and of the clock reading taken at the call (rendered into the
`**Generated:**` header line and the filename): its content equals the
spec-side rendering that folds the fixed section order summary, narrative,
timeline table, sources, recommendations, with no other state. -/
theorem c8_markdown_render (nowIso : String) (nowMs : Int) (r : InvestigationResult) :
    (generateMarkdownExport nowIso nowMs r).content = markdownRenderFromSpec nowIso r ∧
    (generateMarkdownExport nowIso nowMs r).filename =
      "investigation-" ++ toString nowMs ++ ".md" := by
  constructor
  · simp only [generateMarkdownExport, markdownRenderFromSpec, String.join, List.map,
      List.foldl, String.empty_append, String.append_assoc]
  · rfl

end RepoArch
